import Mathlib

/-!
Verification development for the neptune-dns-service repository: a shallow
embedding of its DNS provider clients (Cloudflare, adaptive Cloudflare,
DigitalOcean), the record-operations facade (DNSService), and the
propagation checker, together with theorems settling the frozen claims.

Conventions of the embedding:
- asynchronous HTTP calls are modelled by environment records whose fields
  map the request arguments to an outcome (a 2xx payload or a thrown
  transport or HTTP error with an optional response status);
- thrown JavaScript errors are modelled by explicit error values threaded
  through Except;
- the mutable fields of the adaptive provider (zone cache, account id,
  discovery-attempt counter) are threaded as an explicit state record,
  extended with a counter of network calls used only for observation;
- JavaScript string-truthiness is modelled as being a nonempty string, and
  numeric truthiness of a ttl as being nonzero.
-/

namespace NeptuneDNS

/-- The result record shape of DNSProvider.ts (DNSRecordResult): provider
assigned id plus the uniform record fields. -/
structure DNSRecordResult where
  id : String
  type : String
  name : String
  data : String
  ttl : Nat
  priority : Option Nat
deriving Repr, DecidableEq

/-- The record input shape of DNSProvider.ts (Omit of DNSRecord without id). -/
structure DNSRecordInput where
  type : String
  name : String
  data : String
  ttl : Nat
  priority : Option Nat
deriving Repr, DecidableEq

/-- The DNSProviderError class of DNSProvider.ts: message, statusCode
(default 500) and the provider name. -/
structure DNSProviderError where
  message : String
  statusCode : Nat
  provider : String
deriving Repr, DecidableEq

/-- Outcome of an axios request: a 2xx response carrying the parsed body, or
a thrown error carrying an optional HTTP response status (none when the
transport itself failed without a structured response), the optional
error message extracted from the response body (errors head for Cloudflare,
message for DigitalOcean), and the thrown error message itself. -/
inductive AxiosOutcome (α : Type) where
  | ok (data : α)
  | httpError (status : Option Nat) (dataMessage : Option String) (message : String)
deriving Repr, DecidableEq

/-- Substring test mirroring the JavaScript String.includes check used for
error classification throughout the source. -/
def strContains (hay needle : String) : Bool :=
  hay.toList.tails.any (fun t => needle.toList.isPrefixOf t)

/-- Suffix test mirroring JavaScript String.endsWith, on the character lists
so that concrete instances evaluate inside the kernel. -/
def strEndsWith (s suffix : String) : Bool :=
  suffix.toList.isSuffixOf s.toList

/-- Accumulator step for splitDot. -/
def splitDotAux : List Char → List Char → List String
  | [], acc => [String.mk acc.reverse]
  | c :: rest, acc =>
      if c = '.' then String.mk acc.reverse :: splitDotAux rest []
      else splitDotAux rest (c :: acc)

/-- JavaScript String.split with separator dot, as used by both
extractRootDomain implementations: the empty string splits to one empty
label, and consecutive or trailing dots yield empty labels. -/
def splitDot (s : String) : List String :=
  splitDotAux s.toList []

/-- JavaScript Array.join with separator dot, as used by the slice-and-join
steps of both extractRootDomain implementations. -/
def joinDot : List String → String
  | [] => ""
  | [s] => s
  | s :: rest => s ++ "." ++ joinDot rest

/-! ## Root-domain extraction (C5)

Two distinct implementations exist in the source; both are embedded. -/

/-- The special multi-part TLD list of AdaptiveCloudflareProvider.extractRootDomain. -/
def specialTlds : List String := ["co.uk", "com.au", "co.nz", "co.za"]

/-- AdaptiveCloudflareProvider.extractRootDomain (lines 231-247): split on
dots; identity for at most two labels; keep the last three labels when the
string formed by the last three labels ends with one of the special TLD
strings (a plain string-suffix check), else keep the last two labels. -/
def extractRootDomainAdaptive (domain : String) : String :=
  let parts := splitDot domain
  if parts.length ≤ 2 then
    domain
  else
    let lastThree := joinDot (parts.drop (parts.length - 3))
    if specialTlds.any (fun tld => strEndsWith lastThree tld) then
      lastThree
    else
      joinDot (parts.drop (parts.length - 2))

/-- CloudflareDNSProvider.extractRootDomain (lines 241-248): split on dots;
identity for at most two labels; otherwise always the last two labels, with
no multi-part-suffix handling. -/
def extractRootDomainCF (domain : String) : String :=
  let parts := splitDot domain
  if parts.length ≤ 2 then
    domain
  else
    joinDot (parts.drop (parts.length - 2))

/-! ## Propagation checking (C3) -/

/-- Outcome of one resolver query as seen by Promise.allSettled: fulfilled
with the answer value returned by queryDNSServer, or rejected (timeout,
transport failure, or no matching answer). -/
inductive QueryOutcome where
  | fulfilled (value : String)
  | rejected
deriving Repr, DecidableEq

/-- The fixed resolver list of CloudflareDNSProvider.checkPropagation. -/
def dnsServers : List String := ["8.8.8.8", "1.1.1.1", "208.67.222.222"]

/-- Top-level run of the propagation check: either the allSettled aggregation
completed with one outcome per resolver, or the whole check threw. -/
inductive PropagationRun where
  | completed (outcomes : String → QueryOutcome)
  | topFailure (message : String)

/-- The aggregation step of CloudflareDNSProvider.checkPropagation (lines
281-290): keep the fulfilled values, keep those equal to the expected value,
and compare the count against the 2-of-3 quorum. -/
def countMatching (outcomes : List QueryOutcome) (expectedValue : String) : Nat :=
  ((outcomes.filterMap fun o =>
      match o with
      | .fulfilled v => some v
      | .rejected => none).filter (fun v => v == expectedValue)).length

/-- CloudflareDNSProvider.checkPropagation (lines 275-298): query each server
in dnsServers, count fulfilled answers equal to the expected value, report
true iff at least 2; any top-level failure is caught and reported as false. -/
def checkPropagation (run : PropagationRun) (expectedValue : String) : Bool :=
  match run with
  | .completed outcomes =>
      countMatching (dnsServers.map outcomes) expectedValue ≥ 2
  | .topFailure _ => false

/-! ## List-request parameter construction (C9) -/

/-- Query parameters sent by a listRecords call: the per_page value and the
optional type filter actually passed to the provider API. -/
structure ListParams where
  perPage : Nat
  typeFilter : Option String
deriving Repr, DecidableEq

/-- JavaScript truthiness of the optional type argument: present and nonempty. -/
def truthyStr : Option String → Bool
  | some s => s ≠ ""
  | none => false

/-- CloudflareDNSProvider.listRecords parameter construction (lines 122-125):
per_page 100; the type is passed only when truthy and not the ALL sentinel. -/
def cfListParams (type? : Option String) : ListParams :=
  { perPage := 100
    typeFilter :=
      match type? with
      | some t => if t ≠ "" ∧ t ≠ "ALL" then some t else none
      | none => none }

/-- DigitalOceanDNSProvider.listRecords parameter construction (lines
106-109): per_page 200; the type is passed only when truthy and not ALL. -/
def doListParams (type? : Option String) : ListParams :=
  { perPage := 200
    typeFilter :=
      match type? with
      | some t => if t ≠ "" ∧ t ≠ "ALL" then some t else none
      | none => none }

/-- AdaptiveCloudflareProvider.listRecords parameter construction (lines
370-371): per_page 100; any truthy type is passed through, including ALL. -/
def adaptiveListParams (type? : Option String) : ListParams :=
  { perPage := 100
    typeFilter :=
      match type? with
      | some t => if t ≠ "" then some t else none
      | none => none }

/-! ## DigitalOcean root-name mapping (C10) -/

/-- Raw domain_record object in a DigitalOcean API response body. -/
structure DORawRecord where
  id : Nat
  type : String
  name : String
  data : String
  ttl : Nat
  priority : Option Nat
deriving Repr, DecidableEq

/-- Payload of a DigitalOcean create-record request. -/
structure DOCreatePayload where
  type : String
  name : String
  data : String
  ttl : Nat
  priority : Option Nat
deriving Repr, DecidableEq

/-- Outgoing name mapping of DigitalOceanDNSProvider.createRecord (line 29):
DigitalOcean uses the empty string for the root name. -/
def doSendName (name : String) : String :=
  if name = "@" then "" else name

/-- Result name mapping used by DigitalOceanDNSProvider create, update and
list (doRecord.name or-else the at sign): a falsy (empty) provider name maps
back to the at sign. -/
def doResultName (name : String) : String :=
  if name = "" then "@" else name

/-- Payload construction of DigitalOceanDNSProvider.createRecord (lines
27-33): root name mapped to the empty string, ttl defaulted to 1800 when
falsy, priority or-else null. -/
def doCreatePayload (record : DNSRecordInput) : DOCreatePayload :=
  { type := record.type
    name := doSendName record.name
    data := record.data
    ttl := if record.ttl = 0 then 1800 else record.ttl
    priority := record.priority }

/-- Result mapping of DigitalOceanDNSProvider.createRecord (lines 35-43),
also used by updateRecord and listRecords: id stringified, empty name mapped
back to the at sign. -/
def doMapRecord (raw : DORawRecord) : DNSRecordResult :=
  { id := toString raw.id
    type := raw.type
    name := doResultName raw.name
    data := raw.data
    ttl := raw.ttl
    priority := raw.priority }

/-- DigitalOceanDNSProvider.createRecord (lines 23-52) over an abstract
server: build the payload, send it, map the returned domain_record; any
thrown error is wrapped into a DNSProviderError with the response status or
500. -/
def doCreateRecord (server : DOCreatePayload → AxiosOutcome DORawRecord)
    (record : DNSRecordInput) : Except DNSProviderError DNSRecordResult :=
  match server (doCreatePayload record) with
  | .ok raw => .ok (doMapRecord raw)
  | .httpError status dataMsg msg =>
      .error ⟨"Failed to create DNS record: " ++ (dataMsg.getD msg), status.getD 500, "digitalocean"⟩

/-- DigitalOceanDNSProvider.listRecords result mapping (lines 113-120) over
the raw domain_records array. -/
def doListMap (raws : List DORawRecord) : List DNSRecordResult :=
  raws.map doMapRecord

/-! ## Record-operations facade: DNSService (C2, C4) -/

/-- Partial record of an update call: only the present fields are sent. -/
structure RecordUpdates where
  name : Option String
  data : Option String
  ttl : Option Nat
  priority : Option Nat
deriving Repr, DecidableEq

/-- Abstract provider instance as used by the facade: each operation either
returns a result or throws a DNSProviderError. -/
structure ProviderModel where
  listRecords : String → Option String → Except DNSProviderError (List DNSRecordResult)
  createRecord : String → DNSRecordInput → Except DNSProviderError DNSRecordResult
  updateRecord : String → String → RecordUpdates → Except DNSProviderError DNSRecordResult
  deleteRecord : String → String → Except DNSProviderError Unit

/-- The not-found error classification of DNSService (validateDomain lines
160-162 and listRecords lines 302-304): status 404, or a message containing
one of the two not-found phrases. -/
def isNotFoundError (e : DNSProviderError) : Bool :=
  e.statusCode == 404 ||
    strContains e.message "not found" ||
    strContains e.message "does not exist"

/-- DNSService.validateDomain (lines 143-173): attempt a record listing with
no type filter; success means the domain exists; a not-found-class error
means it does not; any other error propagates. -/
def validateDomain (p : ProviderModel) (domain : String) : Except DNSProviderError Bool :=
  match p.listRecords domain none with
  | .ok _ => .ok true
  | .error e => if isNotFoundError e then .ok false else .error e

/-- JavaScript or-else defaulting of an optional numeric field (zero is falsy). -/
def numOrDefault (v : Option Nat) (d : Nat) : Nat :=
  match v with
  | some t => if t = 0 then d else t
  | none => d

/-- The DomainNotFound error thrown by DNSService.createRecord (lines 190-195). -/
def createDomainNotFound (domain providerName : String) : DNSProviderError :=
  ⟨"Domain " ++ domain ++ " does not exist with " ++ providerName ++
    ". Please create the domain first.", 404, providerName⟩

/-- The DomainNotFound error thrown by DNSService.updateRecord (lines 232-237). -/
def updateDomainNotFound (domain providerName : String) : DNSProviderError :=
  ⟨"Domain " ++ domain ++ " does not exist with " ++ providerName ++
    ". Cannot update records for non-existent domain.", 404, providerName⟩

/-- The DomainNotFound error thrown by DNSService.deleteRecord (lines 264-269). -/
def deleteDomainNotFound (domain providerName : String) : DNSProviderError :=
  ⟨"Domain " ++ domain ++ " does not exist with " ++ providerName ++
    ". Cannot delete records for non-existent domain.", 404, providerName⟩

/-- Optional ttl and priority accepted by DNSService.createRecord. -/
structure CreateOptions where
  ttl : Option Nat
  priority : Option Nat
deriving Repr, DecidableEq

/-- DNSService.createRecord (lines 178-217): validate the domain first; a
nonexistent domain fails with the DomainNotFound error before any provider
mutation; otherwise build the record (ttl or-else 300) and call the provider.
The second component counts mutating provider calls issued. -/
def serviceCreateRecord (p : ProviderModel) (providerName domain recordType name content : String)
    (options : CreateOptions) : Except DNSProviderError DNSRecordResult × Nat :=
  match validateDomain p domain with
  | .error e => (.error e, 0)
  | .ok false => (.error (createDomainNotFound domain providerName), 0)
  | .ok true =>
      let record : DNSRecordInput :=
        { type := recordType
          name := name
          data := content
          ttl := numOrDefault options.ttl 300
          priority := options.priority }
      (p.createRecord domain record, 1)

/-- DNSService.updateRecord (lines 222-251): validate the domain first; a
nonexistent domain fails with the DomainNotFound error before any provider
mutation. The second component counts mutating provider calls issued. -/
def serviceUpdateRecord (p : ProviderModel) (providerName domain recordId : String)
    (updates : RecordUpdates) : Except DNSProviderError DNSRecordResult × Nat :=
  match validateDomain p domain with
  | .error e => (.error e, 0)
  | .ok false => (.error (updateDomainNotFound domain providerName), 0)
  | .ok true => (p.updateRecord domain recordId updates, 1)

/-- DNSService.deleteRecord (lines 256-283): validate the domain first; a
nonexistent domain fails with the DomainNotFound error before any provider
mutation. The second component counts mutating provider calls issued. -/
def serviceDeleteRecord (p : ProviderModel) (providerName domain recordId : String) :
    Except DNSProviderError Unit × Nat :=
  match validateDomain p domain with
  | .error e => (.error e, 0)
  | .ok false => (.error (deleteDomainNotFound domain providerName), 0)
  | .ok true => (p.deleteRecord domain recordId, 1)

/-- DNSService.listRecords (lines 288-317): no prior existence validation; a
single provider listing is attempted, a not-found-class error is converted to
an empty result, any other error propagates. The second component counts
provider listing calls issued (always exactly the one). -/
def serviceListRecords (p : ProviderModel) (domain : String) (type? : Option String) :
    Except DNSProviderError (List DNSRecordResult) × Nat :=
  match p.listRecords domain type? with
  | .ok rs => (.ok rs, 1)
  | .error e => if isNotFoundError e then (.ok [], 1) else (.error e, 1)

/-! ## Adaptive Cloudflare provider (C1, C6, C7, C8)

The mutable instance fields are threaded as an explicit state; every HTTP
request additionally increments an observation-only counter of network
calls. -/

/-- Cloudflare zone object as parsed from zone endpoints; the optional
account id models zone.account with a truthy id. -/
structure CloudflareZone where
  id : String
  name : String
  accountId : Option String
deriving Repr, DecidableEq

/-- One entry of the adaptive provider zone cache (ZoneCache interface,
lines 9-15, minus the Date field which the code never reads). -/
structure ZoneCacheEntry where
  zoneId : String
  method : String
deriving Repr, DecidableEq

/-- The mutable instance state of AdaptiveCloudflareProvider: the zone cache
object, the account id, and the discovery-attempt counter, plus the
observation-only network-call counter. -/
structure AdaptiveState where
  zoneCache : List (String × ZoneCacheEntry)
  accountId : Option String
  discoveryAttempts : Nat
  calls : Nat
deriving Repr, DecidableEq

/-- Property read on the zone-cache object: first (most recent) binding for
the domain wins, matching overwriting assignment on the TS object. -/
def cacheLookup (cache : List (String × ZoneCacheEntry)) (domain : String) :
    Option ZoneCacheEntry :=
  match cache.find? (fun kv => kv.1 == domain) with
  | some kv => some kv.2
  | none => none

/-- AdaptiveCloudflareProvider.cacheZoneId (lines 222-229): store the zone id
and discovery method under the root domain; prepending models the property
overwrite since lookup takes the first binding. -/
def cacheZoneId (st : AdaptiveState) (domain zoneId method : String) : AdaptiveState :=
  { st with zoneCache := (domain, ⟨zoneId, method⟩) :: st.zoneCache }

/-- Increment the observation-only counter of network requests. -/
def bumpCalls (st : AdaptiveState) : AdaptiveState :=
  { st with calls := st.calls + 1 }

/-- Constructor options of the adaptive provider relevant to zone discovery:
the pre-supplied zone id (options.zoneId or the CLOUDFLARE_ZONE_ID
environment variable, combined). -/
structure AdaptiveOptions where
  presetZoneId : Option String
deriving Repr, DecidableEq

/-- Body of a Cloudflare zone-list response: envelope success flag, result
array, and the head error message of the errors array. -/
structure ZoneListResp where
  success : Bool
  result : List CloudflareZone
  errorMessage : Option String
deriving Repr, DecidableEq

/-- Body of the Cloudflare user endpoint response: envelope success flag and
the optional accounts array (account ids). -/
structure UserResp where
  success : Bool
  accounts : Option (List String)
deriving Repr, DecidableEq

/-- Raw dns_record object of a Cloudflare write response. -/
structure CFRawRecord where
  id : String
  type : String
  name : String
  content : String
  ttl : Nat
  priority : Option Nat
deriving Repr, DecidableEq

/-- Body of a Cloudflare dns_records write response: envelope success flag,
head error message, and the result record. -/
structure CFWriteResp where
  success : Bool
  errorMessage : Option String
  result : CFRawRecord
deriving Repr, DecidableEq

/-- Payload of the adaptive create-record request (lines 261-268). -/
structure CFCreatePayload where
  type : String
  name : String
  content : String
  ttl : Nat
  priority : Option Nat
  proxied : Bool
deriving Repr, DecidableEq

/-- Environment of HTTP outcomes for the adaptive provider, one field per
endpoint the code can hit. -/
structure CFEnv where
  zoneDetail : String → AxiosOutcome Bool
  zonesByName : String → AxiosOutcome ZoneListResp
  allZones : AxiosOutcome ZoneListResp
  accountZones : String → String → AxiosOutcome ZoneListResp
  tokenVerify : AxiosOutcome Bool
  userInfo : AxiosOutcome UserResp
  postRecord : String → CFCreatePayload → AxiosOutcome CFWriteResp

/-- Result of one discovery strategy: a zone id was found (with the updated
state), or control falls through to the next strategy. -/
inductive StratOut where
  | found (zoneId : String) (st : AdaptiveState)
  | next (st : AdaptiveState)
deriving Repr, DecidableEq

/-- Strategy 1 of discoverZoneId (lines 87-112): when a pre-supplied zone id
exists, verify it via the zone-detail endpoint; envelope success caches and
returns it; a 404 falls through; any other error caches and returns it
unverified. -/
def strategy1 (env : CFEnv) (opts : AdaptiveOptions) (st : AdaptiveState)
    (rootDomain : String) : StratOut :=
  match opts.presetZoneId with
  | none => .next st
  | some zoneId =>
      let st := bumpCalls st
      match env.zoneDetail zoneId with
      | .ok success =>
          if success then .found zoneId (cacheZoneId st rootDomain zoneId "provided")
          else .next st
      | .httpError status _ _ =>
          if status = some 404 then .next st
          else .found zoneId (cacheZoneId st rootDomain zoneId "provided_unverified")

/-- Strategy 2 of discoverZoneId (lines 114-129): direct zone lookup by root
domain name; take the first result on envelope success with a nonempty
result array; any failure falls through. -/
def strategy2 (env : CFEnv) (st : AdaptiveState) (rootDomain : String) : StratOut :=
  let st := bumpCalls st
  match env.zonesByName rootDomain with
  | .ok resp =>
      if resp.success then
        match resp.result with
        | zone :: _ => .found zone.id (cacheZoneId st rootDomain zone.id "direct_lookup")
        | [] => .next st
      else .next st
  | .httpError _ _ _ => .next st

/-- Strategy 3 of discoverZoneId (lines 131-168): list all zones; prefer an
exact root-domain name match, else (when the domain differs from its root) a
zone whose name is a string suffix of the domain; capture the account id of
the matched zone when none is known yet. -/
def strategy3 (env : CFEnv) (st : AdaptiveState) (domain rootDomain : String) : StratOut :=
  let st := bumpCalls st
  match env.allZones with
  | .ok resp =>
      if resp.success then
        let zone? :=
          match resp.result.find? (fun z => z.name == rootDomain) with
          | some z => some z
          | none =>
              if domain ≠ rootDomain then
                resp.result.find? (fun z => strEndsWith domain z.name)
              else none
        match zone? with
        | some zone =>
            let st :=
              if zone.accountId.isSome ∧ st.accountId = none then
                { st with accountId := zone.accountId }
              else st
            .found zone.id (cacheZoneId st rootDomain zone.id "full_list_scan")
        | none => .next st
      else .next st
  | .httpError _ _ _ => .next st

/-- Strategy 4 of discoverZoneId (lines 170-187): when an account id is
known, query the account-scoped zone endpoint filtered by the root domain;
take the first result on envelope success; any failure falls through. -/
def strategy4 (env : CFEnv) (st : AdaptiveState) (rootDomain : String) : StratOut :=
  match st.accountId with
  | none => .next st
  | some acct =>
      let st := bumpCalls st
      match env.accountZones acct rootDomain with
      | .ok resp =>
          if resp.success then
            match resp.result with
            | zone :: _ => .found zone.id (cacheZoneId st rootDomain zone.id "account_endpoint")
            | [] => .next st
          else .next st
      | .httpError _ _ _ => .next st

/-- The exhaustion error of discoverZoneId (lines 214-219). -/
def zoneNotFoundError (st : AdaptiveState) (rootDomain : String) : DNSProviderError :=
  ⟨"Unable to find zone for " ++ rootDomain ++ " after trying " ++
      toString (st.discoveryAttempts + 1) ++
      " strategies. Please ensure the domain is added to Cloudflare and the API token has proper permissions.",
    404, "cloudflare"⟩

/-- The tail of one discoverZoneId pass from strategy 2 onwards (lines
114-219): strategies 2, 3, 4 in order, then strategy 5 (token verification
and account self-discovery, lines 189-212) whose successful account
discovery re-enters the whole discovery through the given continuation, and
finally the exhaustion error. -/
def discoverFromStrategy2 (env : CFEnv)
    (recurse : AdaptiveState → Except DNSProviderError String × AdaptiveState)
    (st : AdaptiveState) (domain rootDomain : String) :
    Except DNSProviderError String × AdaptiveState :=
  match strategy2 env st rootDomain with
  | .found z st => (.ok z, st)
  | .next st =>
    match strategy3 env st domain rootDomain with
    | .found z st => (.ok z, st)
    | .next st =>
      match strategy4 env st rootDomain with
      | .found z st => (.ok z, st)
      | .next st =>
        match st.accountId with
        | some _ => (.error (zoneNotFoundError st rootDomain), st)
        | none =>
          let st1 := bumpCalls st
          match env.tokenVerify with
          | .httpError _ _ _ => (.error (zoneNotFoundError st1 rootDomain), st1)
          | .ok vsuccess =>
            if vsuccess then
              let st2 := bumpCalls st1
              match env.userInfo with
              | .httpError _ _ _ => (.error (zoneNotFoundError st2 rootDomain), st2)
              | .ok uresp =>
                if uresp.success then
                  match uresp.accounts with
                  | some (acct :: _) => recurse { st2 with accountId := some acct }
                  | some [] => (.error (zoneNotFoundError st2 rootDomain), st2)
                  | none => (.error (zoneNotFoundError st2 rootDomain), st2)
                else (.error (zoneNotFoundError st2 rootDomain), st2)
            else (.error (zoneNotFoundError st1 rootDomain), st1)

/-- One pass of AdaptiveCloudflareProvider.discoverZoneId (lines 77-220):
root-domain computation, cache check, strategy 1, then the strategy-2
onwards tail. -/
def discoverOnce (env : CFEnv) (opts : AdaptiveOptions)
    (recurse : AdaptiveState → Except DNSProviderError String × AdaptiveState)
    (st : AdaptiveState) (domain : String) :
    Except DNSProviderError String × AdaptiveState :=
  let rootDomain := extractRootDomainAdaptive domain
  match cacheLookup st.zoneCache rootDomain with
  | some entry => (.ok entry.zoneId, st)
  | none =>
    match strategy1 env opts st rootDomain with
    | .found z st => (.ok z, st)
    | .next st => discoverFromStrategy2 env recurse st domain rootDomain

/-- Fuel-indexed discovery: the fuel bounds how often the strategy-5
self-recursion may re-enter the discovery. At fuel zero the continuation
reports exhaustion; that branch is unreachable from fuel one because the
recursion always starts with a discovered account id, which makes the
strategy-5 guard of the inner call false. -/
def discoverZoneIdF (env : CFEnv) (opts : AdaptiveOptions) :
    Nat → AdaptiveState → String → Except DNSProviderError String × AdaptiveState
  | 0, st, domain =>
      discoverOnce env opts
        (fun st2 => (.error (zoneNotFoundError st2 (extractRootDomainAdaptive domain)), st2))
        st domain
  | fuel + 1, st, domain =>
      discoverOnce env opts (fun st2 => discoverZoneIdF env opts fuel st2 domain) st domain

/-- AdaptiveCloudflareProvider.discoverZoneId (lines 77-220): the TS
self-recursion from strategy 5 executes at most once, so fuel one reproduces
the source exactly. -/
def discoverZoneId (env : CFEnv) (opts : AdaptiveOptions) (st : AdaptiveState)
    (domain : String) : Except DNSProviderError String × AdaptiveState :=
  discoverZoneIdF env opts 1 st domain

/-- AdaptiveCloudflareProvider.verifyDomainOwnership (lines 400-409): true
when discovery resolves a zone, false on any discovery error. -/
def adaptiveVerifyDomainOwnership (env : CFEnv) (opts : AdaptiveOptions)
    (st : AdaptiveState) (domain : String) : Bool × AdaptiveState :=
  match discoverZoneId env opts st domain with
  | (.ok _, st) => (true, st)
  | (.error _, st) => (false, st)

/-- A thrown JavaScript error as observed by the createRecord catch block:
its message, and the optional response status and response-body error
message (both absent for locally constructed errors, including the
DNSProviderError thrown by discoverZoneId, which carries no response
property). -/
structure JSError where
  message : String
  responseStatus : Option Nat
  responseErrMsg : Option String
deriving Repr, DecidableEq

/-- Full record-name construction of the adaptive createRecord (lines
257-259): root maps to the domain; a name already containing the domain is
kept; otherwise the domain is appended. -/
def fullRecordName (domain name : String) : String :=
  if name = "@" then domain
  else if strContains name domain then name
  else name ++ "." ++ domain

/-- Payload construction of the adaptive createRecord (lines 261-268): ttl
or-else 3600, never proxied. -/
def adaptiveCreatePayload (domain : String) (record : DNSRecordInput) : CFCreatePayload :=
  { type := record.type
    name := fullRecordName domain record.name
    content := record.data
    ttl := if record.ttl = 0 then 3600 else record.ttl
    priority := record.priority
    proxied := false }

/-- AdaptiveCloudflareProvider.createRecord (lines 249-302), fuel-indexed on
the invalidation-retry recursion: each invocation first resets the
discovery-attempt counter to zero, discovers the zone, posts the record; on
a thrown error whose message contains the word zone while the counter is
below 2, it increments the counter, clears the zone cache and re-enters
itself; otherwise the wrapped DNSProviderError surfaces. A result of none
means the recursion exceeded the given fuel, i.e. the call is still
retrying. -/
def adaptiveCreateRecordF (env : CFEnv) (opts : AdaptiveOptions) :
    Nat → AdaptiveState → String → DNSRecordInput →
    Option (Except DNSProviderError DNSRecordResult × AdaptiveState)
  | 0, _, _, _ => none
  | fuel + 1, st, domain, record =>
      let st0 := { st with discoveryAttempts := 0 }
      let handle := fun (st1 : AdaptiveState) (e : JSError) =>
        if strContains e.message "zone" ∧ st1.discoveryAttempts < 2 then
          adaptiveCreateRecordF env opts fuel
            { st1 with discoveryAttempts := st1.discoveryAttempts + 1, zoneCache := [] }
            domain record
        else
          some (.error ⟨"Failed to create DNS record: " ++ (e.responseErrMsg.getD e.message),
                  e.responseStatus.getD 500, "cloudflare"⟩, st1)
      match discoverZoneId env opts st0 domain with
      | (.error derr, st1) => handle st1 ⟨derr.message, none, none⟩
      | (.ok zoneId, st1) =>
          let st2 := bumpCalls st1
          match env.postRecord zoneId (adaptiveCreatePayload domain record) with
          | .httpError status dataMsg msg => handle st2 ⟨msg, status, dataMsg⟩
          | .ok resp =>
              if resp.success then
                some (.ok ⟨resp.result.id, resp.result.type, resp.result.name,
                        resp.result.content, resp.result.ttl, resp.result.priority⟩, st2)
              else
                handle st2 ⟨resp.errorMessage.getD "Failed to create DNS record", none, none⟩

/-! ## Basic Cloudflare and DigitalOcean ownership verification (C6) -/

/-- Environment of HTTP outcomes for the basic CloudflareDNSProvider. -/
structure CFBasicEnv where
  zonesByName : String → AxiosOutcome ZoneListResp
  allZones : AxiosOutcome ZoneListResp

/-- CloudflareDNSProvider.getZoneId (lines 181-236): query zones by root
domain name; envelope failure or an empty zone list throw locally (the
latter after a debug listing whose outcome is ignored); the catch block
wraps any thrown error, with the response status when one exists, else
500. -/
def cfGetZoneId (env : CFBasicEnv) (domain : String) : Except DNSProviderError String :=
  let rootDomain := extractRootDomainCF domain
  match env.zonesByName rootDomain with
  | .httpError status _ msg =>
      .error ⟨"Failed to get zone ID for " ++ domain ++ ": " ++ msg, status.getD 500, "cloudflare"⟩
  | .ok resp =>
      if resp.success then
        match resp.result with
        | zone :: _ => .ok zone.id
        | [] =>
            .error ⟨"Failed to get zone ID for " ++ domain ++ ": Zone not found for domain: " ++
                rootDomain ++ ". Make sure the domain is added to your Cloudflare account.",
              500, "cloudflare"⟩
      else
        .error ⟨"Failed to get zone ID for " ++ domain ++ ": " ++
            (resp.errorMessage.getD "Unknown Cloudflare API error"), 500, "cloudflare"⟩

/-- CloudflareDNSProvider.verifyDomainOwnership (lines 154-176): true when a
zone id resolves; false when the thrown message contains the zone-not-found
phrase; any other failure is re-thrown as a 500 DNSProviderError. -/
def cfVerifyDomainOwnership (env : CFBasicEnv) (domain : String) :
    Except DNSProviderError Bool :=
  match cfGetZoneId env domain with
  | .ok _ => .ok true
  | .error e =>
      if strContains e.message "Zone not found" then .ok false
      else .error ⟨"Failed to verify domain ownership: " ++ e.message, 500, "cloudflare"⟩

/-- DigitalOceanDNSProvider.verifyDomainOwnership (lines 134-156) over the
outcome of the domain-detail request: true on success, false exactly on a
404 response status, any other error wrapped and propagated. -/
def doVerifyDomainOwnership (getDomain : String → AxiosOutcome Unit) (domain : String) :
    Except DNSProviderError Bool :=
  match getDomain domain with
  | .ok _ => .ok true
  | .httpError status dataMsg msg =>
      if status = some 404 then .ok false
      else
        .error ⟨"Failed to verify domain ownership: " ++ (dataMsg.getD msg),
          status.getD 500, "digitalocean"⟩

/-- The freshly constructed instance state of the adaptive provider with no
configured account id: empty cache, no account, zero counters. -/
def initialAdaptiveState : AdaptiveState :=
  ⟨[], none, 0, 0⟩

/-- Classifier of the ZoneNotFound-class failure of the adaptive provider:
status 404 carrying the discovery-exhaustion message. -/
def isZoneNotFoundClass (e : DNSProviderError) : Bool :=
  e.statusCode == 404 && strContains e.message "Unable to find zone"

/-! ## Concrete environments and fixtures used by witnesses and counterexamples -/

/-- Name-echoing DigitalOcean server used by the C10 witness. -/
def doEchoServer (p : DOCreatePayload) : DORawRecord :=
  ⟨7, p.type, p.name, p.data, p.ttl, p.priority⟩

/-- Provider whose listing always reports the domain as not found; the
mutating operations and the result listing are never reached in the
witnesses that use it. -/
def missingDomainProvider : ProviderModel :=
  { listRecords := fun _ _ => .error ⟨"Zone not found for domain: gone.example.com", 404, "cloudflare"⟩
    createRecord := fun _ _ => .ok ⟨"1", "A", "www", "1.2.3.4", 300, none⟩
    updateRecord := fun _ _ _ => .ok ⟨"1", "A", "www", "1.2.3.4", 300, none⟩
    deleteRecord := fun _ _ => .ok () }

/-- Basic Cloudflare environment whose zone listing succeeds with zero
zones, used by the C6 witness. -/
def cfNoZonesEnv : CFBasicEnv :=
  { zonesByName := fun _ => .ok ⟨true, [], none⟩
    allZones := .ok ⟨true, [], none⟩ }

/-- DigitalOcean domain-detail outcome reporting 404, used by the C6 witness. -/
def doMissing : String → AxiosOutcome Unit :=
  fun _ => .httpError (some 404) none "Request failed with status code 404"

/-- Adaptive environment in which every discovery strategy comes up empty. -/
def cfEmptyEnv : CFEnv :=
  { zoneDetail := fun _ => .httpError (some 404) none "Request failed with status code 404"
    zonesByName := fun _ => .ok ⟨true, [], none⟩
    allZones := .ok ⟨true, [], none⟩
    accountZones := fun _ _ => .ok ⟨true, [], none⟩
    tokenVerify := .ok false
    userInfo := .ok ⟨false, none⟩
    postRecord := fun _ _ => .httpError none none "unreachable" }

/-- Adaptive environment whose zone-detail verification fails with a 403
permission status. -/
def cfPermissionEnv : CFEnv :=
  { cfEmptyEnv with
    zoneDetail := fun _ => .httpError (some 403) none "Request failed with status code 403" }

/-- C8 counterexample environment: the pre-supplied zone id answers 404 on
verification and the direct name lookup then succeeds, so the first
resolution costs two network lookups. -/
def cfPresetThenDirectEnv : CFEnv :=
  { cfEmptyEnv with
    zonesByName := fun _ => .ok ⟨true, [⟨"zid-real", "example.com", none⟩], none⟩ }

/-- First resolution of the C8 counterexample run. -/
def c8FirstRun : Except DNSProviderError String × AdaptiveState :=
  discoverZoneId cfPresetThenDirectEnv ⟨some "zid-preset"⟩ initialAdaptiveState
    "www.example.com"

/-- Second consecutive resolution of the C8 counterexample run. -/
def c8SecondRun : Except DNSProviderError String × AdaptiveState :=
  discoverZoneId cfPresetThenDirectEnv ⟨some "zid-preset"⟩ c8FirstRun.2 "www.example.com"

/-- C1 environment: zone discovery succeeds by direct lookup, but every
record-create request persistently fails at the envelope level with a
zone-related error message. -/
def zoneErrorEnv : CFEnv :=
  { cfEmptyEnv with
    zonesByName := fun _ => .ok ⟨true, [⟨"zid-1", "example.com", none⟩], none⟩
    postRecord := fun _ _ => .ok ⟨false, some "DNS zone is misconfigured",
      ⟨"", "", "", "", 0, none⟩⟩ }

/-! ## Supporting lemmas -/

theorem countMatching_eq_count (l : List QueryOutcome) (e : String) :
    countMatching l e = l.count (.fulfilled e) := by
  induction l with
  | nil => rfl
  | cons o rest ih =>
      cases o with
      | fulfilled v =>
          by_cases hv : v = e
          · subst hv
            simp [countMatching, List.count_cons, List.filterMap_cons, List.filter_cons] at ih ⊢
            omega
          · simp [countMatching, List.count_cons, List.filterMap_cons, List.filter_cons, hv,
              Ne.symm hv] at ih ⊢
            omega
      | rejected =>
          simp [countMatching, List.count_cons, List.filterMap_cons] at ih ⊢
          omega

theorem strContains_of_isPrefixOf {hay needle : String}
    (h : needle.toList.isPrefixOf hay.toList = true) : strContains hay needle = true := by
  unfold strContains
  exact List.any_eq_true.mpr ⟨hay.toList, (List.mem_tails _ _).mpr (List.suffix_refl _), h⟩

theorem zoneNotFoundError_class (st : AdaptiveState) (root : String) :
    isZoneNotFoundClass (zoneNotFoundError st root) = true := by
  unfold isZoneNotFoundClass zoneNotFoundError
  rw [Bool.and_eq_true]
  refine ⟨rfl, ?_⟩
  apply strContains_of_isPrefixOf
  simp only [List.isPrefixOf_iff_prefix]
  have h1 : "Unable to find zone".toList <+: "Unable to find zone for ".toList := by decide
  exact h1.trans (List.prefix_append _ _)

theorem discoverFromStrategy2_error_class (env : CFEnv)
    (recurse : AdaptiveState → Except DNSProviderError String × AdaptiveState)
    (hrec : ∀ st2 e st3, recurse st2 = (.error e, st3) → isZoneNotFoundClass e = true)
    (st : AdaptiveState) (domain rootDomain : String) :
    ∀ e st', discoverFromStrategy2 env recurse st domain rootDomain = (.error e, st') →
      isZoneNotFoundClass e = true := by
  intro e st' h
  unfold discoverFromStrategy2 at h
  repeat' split at h
  all_goals
    first
      | exact hrec _ _ _ h
      | (simp only [Prod.mk.injEq, Except.error.injEq] at h
         exact h.1 ▸ zoneNotFoundError_class _ _)
      | simp at h

theorem discoverOnce_error_class (env : CFEnv) (opts : AdaptiveOptions)
    (recurse : AdaptiveState → Except DNSProviderError String × AdaptiveState)
    (hrec : ∀ st2 e st3, recurse st2 = (.error e, st3) → isZoneNotFoundClass e = true)
    (st : AdaptiveState) (domain : String) :
    ∀ e st', discoverOnce env opts recurse st domain = (.error e, st') →
      isZoneNotFoundClass e = true := by
  intro e st' h
  simp only [discoverOnce] at h
  cases hc : cacheLookup st.zoneCache (extractRootDomainAdaptive domain) with
  | some entry =>
      rw [hc] at h
      simp at h
  | none =>
      rw [hc] at h
      cases hs : strategy1 env opts st (extractRootDomainAdaptive domain) with
      | found z st2 =>
          rw [hs] at h
          simp at h
      | next st2 =>
          rw [hs] at h
          exact discoverFromStrategy2_error_class env recurse hrec st2 domain _ e st' h

theorem discoverZoneIdF_error_class (fuel : Nat) :
    ∀ (env : CFEnv) (opts : AdaptiveOptions) (st : AdaptiveState) (domain : String)
      (e : DNSProviderError) (st' : AdaptiveState),
      discoverZoneIdF env opts fuel st domain = (.error e, st') →
        isZoneNotFoundClass e = true := by
  induction fuel with
  | zero =>
      intro env opts st domain e st' h
      simp only [discoverZoneIdF] at h
      refine discoverOnce_error_class env opts _ ?_ st domain e st' h
      intro st2 e2 st3 h2
      simp only [Prod.mk.injEq, Except.error.injEq] at h2
      exact h2.1 ▸ zoneNotFoundError_class _ _
  | succ n ih =>
      intro env opts st domain e st' h
      simp only [discoverZoneIdF] at h
      refine discoverOnce_error_class env opts _ ?_ st domain e st' h
      intro st2 e2 st3 h2
      exact ih env opts st2 domain e2 st3 h2

/-! ## Theorems for the claims -/

/-- C3: the propagation check over the fixed list of 3 resolvers reports
propagated exactly when at least 2 of the 3 queries returned a value equal
to the expected value, an errored query counting toward neither side; the
two concrete conjuncts instantiate the spec scenarios (2 matches plus 1
timeout gives true, a single match gives false); a top-level failure of the
check yields false rather than raising. -/
theorem C3_propagation_quorum :
    (∀ (outcomes : String → QueryOutcome) (expectedValue : String),
        (checkPropagation (.completed outcomes) expectedValue = true ↔
          2 ≤ (dnsServers.map outcomes).count (.fulfilled expectedValue))) ∧
    (∀ (message expectedValue : String),
        checkPropagation (.topFailure message) expectedValue = false) ∧
    checkPropagation
        (.completed fun s => if s = "208.67.222.222" then .rejected else .fulfilled "203.0.113.5")
        "203.0.113.5" = true ∧
    checkPropagation
        (.completed fun s => if s = "8.8.8.8" then .fulfilled "203.0.113.5" else .rejected)
        "203.0.113.5" = false := by
  refine ⟨?_, ?_, by decide, by decide⟩
  · intro outcomes expectedValue
    simp [checkPropagation, ge_iff_le, countMatching_eq_count]
  · intro message expectedValue
    rfl

/-- C5 counterexample: the basic CloudflareDNSProvider extraction returns
the last two labels even under a recognized multi-part public suffix, so on
a.b.co.uk it yields co.uk, not the last three labels b.co.uk that the claim
requires. -/
theorem C5_counterexample_cf_special_tld :
    extractRootDomainCF "a.b.co.uk" = "co.uk" ∧
    extractRootDomainCF "a.b.co.uk" ≠ "b.co.uk" := by
  decide

/-- C5 amended: extraction is the identity for at most 2 labels in both
implementations; only the adaptive implementation handles multi-part
suffixes, returning the last three labels exactly when the string formed by
the last three labels ends with one of co.uk, com.au, co.nz, co.za (a plain
string-suffix check, so names such as barco.uk also match), and the last two
labels otherwise; the basic Cloudflare implementation always returns the
last two labels for longer domains. -/
theorem C5_amended_root_domain_extraction :
    (∀ domain : String, (splitDot domain).length ≤ 2 →
        extractRootDomainAdaptive domain = domain ∧ extractRootDomainCF domain = domain) ∧
    (∀ domain : String, 2 < (splitDot domain).length →
        extractRootDomainCF domain =
          joinDot ((splitDot domain).drop ((splitDot domain).length - 2))) ∧
    (∀ domain : String, 2 < (splitDot domain).length →
        specialTlds.any (fun tld =>
          strEndsWith (joinDot ((splitDot domain).drop ((splitDot domain).length - 3))) tld) = true →
        extractRootDomainAdaptive domain =
          joinDot ((splitDot domain).drop ((splitDot domain).length - 3))) ∧
    (∀ domain : String, 2 < (splitDot domain).length →
        specialTlds.any (fun tld =>
          strEndsWith (joinDot ((splitDot domain).drop ((splitDot domain).length - 3))) tld) = false →
        extractRootDomainAdaptive domain =
          joinDot ((splitDot domain).drop ((splitDot domain).length - 2))) ∧
    extractRootDomainAdaptive "app.shop.example.co.uk" = "example.co.uk" ∧
    extractRootDomainAdaptive "x.y.barco.uk" = "y.barco.uk" ∧
    extractRootDomainCF "a.b.co.uk" = "co.uk" ∧
    extractRootDomainAdaptive "api.example.com" = "example.com" := by
  refine ⟨?_, ?_, ?_, ?_, by decide, by decide, by decide, by decide⟩
  · intro domain h
    constructor <;> simp [extractRootDomainAdaptive, extractRootDomainCF, h]
  · intro domain h
    simp [extractRootDomainCF, Nat.not_le_of_lt h, if_neg]
  · intro domain h hany
    simp [extractRootDomainAdaptive, Nat.not_le_of_lt h, hany]
  · intro domain h hany
    simp [extractRootDomainAdaptive, Nat.not_le_of_lt h, hany]

/-- C5 witness: the amended characterization evaluated at concrete domains. -/
theorem C5_amended_witness :
    extractRootDomainAdaptive "example.com" = "example.com" ∧
    extractRootDomainCF "sub.example.com" = "example.com" := by
  refine ⟨(C5_amended_root_domain_extraction.1 "example.com" (by decide)).1, ?_⟩
  exact (C5_amended_root_domain_extraction.2.1 "sub.example.com" (by decide)).trans (by decide)

/-- C9 counterexample: the adaptive provider passes the ALL sentinel through
to the API as a type filter instead of treating it as no filter. -/
theorem C9_counterexample_adaptive_all_sentinel :
    (adaptiveListParams (some "ALL")).typeFilter = some "ALL" ∧
    ¬ (adaptiveListParams (some "ALL")).typeFilter = none := by
  decide

/-- C9 amended: the basic Cloudflare and DigitalOcean providers treat the
ALL sentinel (and an absent or empty type) as no filter and pass any other
nonempty type through; the adaptive Cloudflare provider passes every
nonempty type through unfiltered, including the ALL sentinel. -/
theorem C9_amended_list_type_sentinel :
    (cfListParams (some "ALL")).typeFilter = none ∧
    (doListParams (some "ALL")).typeFilter = none ∧
    (cfListParams none).typeFilter = none ∧
    (doListParams none).typeFilter = none ∧
    (∀ t : String, t ≠ "" → t ≠ "ALL" →
        (cfListParams (some t)).typeFilter = some t ∧
        (doListParams (some t)).typeFilter = some t) ∧
    (∀ t : String, t ≠ "" → (adaptiveListParams (some t)).typeFilter = some t) ∧
    (adaptiveListParams (some "ALL")).typeFilter = some "ALL" := by
  refine ⟨by decide, by decide, rfl, rfl, ?_, ?_, by decide⟩
  · intro t h1 h2
    constructor <;> simp [cfListParams, doListParams, h1, h2]
  · intro t h1
    simp [adaptiveListParams, h1]

/-- C9 witness: the amended statement evaluated at the type A. -/
theorem C9_amended_witness :
    (cfListParams (some "A")).typeFilter = some "A" ∧
    (adaptiveListParams (some "A")).typeFilter = some "A" := by
  exact ⟨(C9_amended_list_type_sentinel.2.2.2.2.1 "A" (by decide) (by decide)).1,
    C9_amended_list_type_sentinel.2.2.2.2.2.1 "A" (by decide)⟩

/-- C10: the DigitalOcean root-name mapping round-trips: a record sent with
the at-sign name carries the empty string in the payload; every result
mapped from a create, update or list response turns an empty provider name
back into the at sign; against a name-echoing server, creating a root record
yields a result named with the at sign again. -/
theorem C10_do_root_name_roundtrip (record : DNSRecordInput)
    (server : DOCreatePayload → DORawRecord)
    (hecho : ∀ p, (server p).name = p.name) :
    (record.name = "@" → (doCreatePayload record).name = "") ∧
    (record.name = "@" →
        ∃ r, doCreateRecord (fun p => .ok (server p)) record = .ok r ∧ r.name = "@") ∧
    (∀ raw : DORawRecord, (doMapRecord raw).name = (if raw.name = "" then "@" else raw.name)) ∧
    (∀ raws : List DORawRecord,
        (doListMap raws).map (fun r => r.name) =
          raws.map (fun raw => if raw.name = "" then "@" else raw.name)) := by
  refine ⟨?_, ?_, ?_, ?_⟩
  · intro h
    simp [doCreatePayload, doSendName, h]
  · intro h
    refine ⟨doMapRecord (server (doCreatePayload record)), rfl, ?_⟩
    simp [doMapRecord, doResultName, hecho, doCreatePayload, doSendName, h]
  · intro raw
    simp [doMapRecord, doResultName]
  · intro raws
    simp [doListMap, doMapRecord, doResultName]

/-- C10 witness: creating a root A record against the echo server returns a
result whose name is the at sign again. -/
theorem C10_witness :
    ∃ r, doCreateRecord (fun p => .ok (doEchoServer p))
        ⟨"A", "@", "203.0.113.5", 300, none⟩ = .ok r ∧ r.name = "@" := by
  exact (C10_do_root_name_roundtrip ⟨"A", "@", "203.0.113.5", 300, none⟩ doEchoServer
    (fun p => rfl)).2.1 rfl

/-- C2: createRecord, updateRecord and deleteRecord of the facade run the
domain-existence check first; when the provider listing fails with a
not-found-class error the operation fails with the matching DomainNotFound
error of status 404 and issues zero mutating provider calls; when the
listing fails with any other error, that error propagates unchanged, again
with zero mutating calls. -/
theorem C2_mutations_validate_domain_first (p : ProviderModel)
    (providerName domain recordType name content recordId : String)
    (options : CreateOptions) (updates : RecordUpdates) (e : DNSProviderError)
    (hlist : p.listRecords domain none = .error e) :
    (isNotFoundError e = true →
        serviceCreateRecord p providerName domain recordType name content options =
          (.error (createDomainNotFound domain providerName), 0) ∧
        serviceUpdateRecord p providerName domain recordId updates =
          (.error (updateDomainNotFound domain providerName), 0) ∧
        serviceDeleteRecord p providerName domain recordId =
          (.error (deleteDomainNotFound domain providerName), 0) ∧
        (createDomainNotFound domain providerName).statusCode = 404 ∧
        (updateDomainNotFound domain providerName).statusCode = 404 ∧
        (deleteDomainNotFound domain providerName).statusCode = 404) ∧
    (isNotFoundError e = false →
        serviceCreateRecord p providerName domain recordType name content options =
          (.error e, 0) ∧
        serviceUpdateRecord p providerName domain recordId updates = (.error e, 0) ∧
        serviceDeleteRecord p providerName domain recordId = (.error e, 0)) := by
  constructor <;> intro h <;>
    simp [serviceCreateRecord, serviceUpdateRecord, serviceDeleteRecord, validateDomain,
      hlist, h, createDomainNotFound, updateDomainNotFound, deleteDomainNotFound]

/-- C2 witness: against a provider whose listing reports not-found, create
and delete fail with the DomainNotFound errors and issue no mutation. -/
theorem C2_witness :
    serviceCreateRecord missingDomainProvider "cloudflare" "gone.example.com" "A" "www"
        "1.2.3.4" ⟨none, none⟩ =
      (.error (createDomainNotFound "gone.example.com" "cloudflare"), 0) ∧
    serviceDeleteRecord missingDomainProvider "cloudflare" "gone.example.com" "rec1" =
      (.error (deleteDomainNotFound "gone.example.com" "cloudflare"), 0) := by
  have h := C2_mutations_validate_domain_first missingDomainProvider "cloudflare"
    "gone.example.com" "A" "www" "1.2.3.4" "rec1" ⟨none, none⟩ ⟨none, none, none, none⟩
    ⟨"Zone not found for domain: gone.example.com", 404, "cloudflare"⟩ rfl
  exact ⟨(h.1 (by decide)).1, (h.1 (by decide)).2.2.1⟩

/-- C4: facade listRecords issues exactly the one provider listing call (no
prior existence validation), converts a not-found-class provider error into
an empty result without throwing, and propagates any other error. -/
theorem C4_list_records_missing_domain (p : ProviderModel) (domain : String)
    (type? : Option String) :
    (∀ rs, p.listRecords domain type? = .ok rs →
        serviceListRecords p domain type? = (.ok rs, 1)) ∧
    (∀ e, p.listRecords domain type? = .error e →
        (isNotFoundError e = true → serviceListRecords p domain type? = (.ok [], 1)) ∧
        (isNotFoundError e = false → serviceListRecords p domain type? = (.error e, 1))) := by
  constructor
  · intro rs h
    simp [serviceListRecords, h]
  · intro e h
    constructor <;> intro h2 <;> simp [serviceListRecords, h, h2]

/-- C4 witness: listing a nonexistent domain returns the empty sequence from
the single listing attempt. -/
theorem C4_witness :
    serviceListRecords missingDomainProvider "gone.example.com" none = (.ok [], 1) := by
  exact ((C4_list_records_missing_domain missingDomainProvider "gone.example.com" none).2
    ⟨"Zone not found for domain: gone.example.com", 404, "cloudflare"⟩ rfl).1 (by decide)

/-- C6: for each provider implementation, ownership verification returns
true exactly when a zone resolves for the domain; it returns false (not an
error) on the zone-not-found-classed failure (the basic Cloudflare provider
classifies by the zone-not-found message, DigitalOcean by a 404 status);
any other error propagates as an error; for the adaptive provider every
possible discovery failure is zone-not-found classed (status 404 with the
exhaustion message) and yields false. -/
theorem C6_verify_ownership_not_found (envB : CFBasicEnv)
    (getDomain : String → AxiosOutcome Unit) (envA : CFEnv) (opts : AdaptiveOptions)
    (st : AdaptiveState) (domain : String) :
    (∀ z, cfGetZoneId envB domain = .ok z →
        cfVerifyDomainOwnership envB domain = .ok true) ∧
    (∀ e, cfGetZoneId envB domain = .error e →
        (strContains e.message "Zone not found" = true →
            cfVerifyDomainOwnership envB domain = .ok false) ∧
        (strContains e.message "Zone not found" = false →
            cfVerifyDomainOwnership envB domain =
              .error ⟨"Failed to verify domain ownership: " ++ e.message, 500, "cloudflare"⟩)) ∧
    (getDomain domain = .ok () → doVerifyDomainOwnership getDomain domain = .ok true) ∧
    (∀ status dataMsg msg, getDomain domain = .httpError status dataMsg msg →
        (status = some 404 → doVerifyDomainOwnership getDomain domain = .ok false) ∧
        (status ≠ some 404 →
            doVerifyDomainOwnership getDomain domain =
              .error ⟨"Failed to verify domain ownership: " ++ (dataMsg.getD msg),
                status.getD 500, "digitalocean"⟩)) ∧
    (∀ z st', discoverZoneId envA opts st domain = (.ok z, st') →
        adaptiveVerifyDomainOwnership envA opts st domain = (true, st')) ∧
    (∀ e st', discoverZoneId envA opts st domain = (.error e, st') →
        adaptiveVerifyDomainOwnership envA opts st domain = (false, st') ∧
        isZoneNotFoundClass e = true) := by
  refine ⟨?_, ?_, ?_, ?_, ?_, ?_⟩
  · intro z h
    simp [cfVerifyDomainOwnership, h]
  · intro e h
    constructor <;> intro h2 <;> simp [cfVerifyDomainOwnership, h, h2]
  · intro h
    simp [doVerifyDomainOwnership, h]
  · intro status dataMsg msg h
    constructor <;> intro h2 <;> simp [doVerifyDomainOwnership, h, h2]
  · intro z st' h
    simp [adaptiveVerifyDomainOwnership, h]
  · intro e st' h
    exact ⟨by simp [adaptiveVerifyDomainOwnership, h],
      discoverZoneIdF_error_class 1 envA opts st domain e st' h⟩

/-- C6 witness: a domain with no zone yields ownership false (not an error)
in all three provider implementations. -/
theorem C6_witness :
    cfVerifyDomainOwnership cfNoZonesEnv "missing.example.com" = .ok false ∧
    doVerifyDomainOwnership doMissing "missing.example.com" = .ok false ∧
    adaptiveVerifyDomainOwnership cfEmptyEnv ⟨none⟩ initialAdaptiveState "missing.example.com" =
      (false, ⟨[], none, 0, 3⟩) := by
  have h := C6_verify_ownership_not_found cfNoZonesEnv doMissing cfEmptyEnv ⟨none⟩
    initialAdaptiveState "missing.example.com"
  refine ⟨(h.2.1 ⟨"Failed to get zone ID for missing.example.com: Zone not found for domain: example.com. Make sure the domain is added to your Cloudflare account.", 500, "cloudflare"⟩ rfl).1 (by decide),
    (h.2.2.2.1 (some 404) none "Request failed with status code 404" rfl).1 rfl, ?_⟩
  exact (h.2.2.2.2.2 (zoneNotFoundError ⟨[], none, 0, 3⟩ "example.com") ⟨[], none, 0, 3⟩
    rfl).1

/-- C7: with a pre-supplied zone id and a cache miss, discovery verifies the
id via the zone-detail call; on any non-404 error status the id is treated
as correct, cached for the root domain under the provided-unverified method,
and returned; on a 404 the discovery falls through to the strategy-2 tail
with the zone cache unchanged, i.e. without caching the pre-supplied id. -/
theorem C7_presupplied_zone_id (env : CFEnv) (opts : AdaptiveOptions)
    (st : AdaptiveState) (domain zid : String) (status : Option Nat)
    (dataMsg : Option String) (msg : String)
    (hpreset : opts.presetZoneId = some zid)
    (hmiss : cacheLookup st.zoneCache (extractRootDomainAdaptive domain) = none)
    (hdetail : env.zoneDetail zid = .httpError status dataMsg msg) :
    (status ≠ some 404 →
        discoverZoneId env opts st domain =
          (.ok zid, cacheZoneId (bumpCalls st) (extractRootDomainAdaptive domain) zid
            "provided_unverified") ∧
        cacheLookup (cacheZoneId (bumpCalls st) (extractRootDomainAdaptive domain) zid
            "provided_unverified").zoneCache (extractRootDomainAdaptive domain) =
          some ⟨zid, "provided_unverified"⟩) ∧
    (status = some 404 →
        discoverZoneId env opts st domain =
          discoverFromStrategy2 env (fun st2 => discoverZoneIdF env opts 0 st2 domain)
            (bumpCalls st) domain (extractRootDomainAdaptive domain) ∧
        (bumpCalls st).zoneCache = st.zoneCache) := by
  constructor <;> intro h2
  · refine ⟨?_, by simp [cacheLookup, cacheZoneId]⟩
    simp only [discoverZoneId, discoverZoneIdF, discoverOnce, hmiss, strategy1, hpreset, hdetail]
    simp [h2]
  · refine ⟨?_, rfl⟩
    simp only [discoverZoneId, discoverZoneIdF, discoverOnce, hmiss, strategy1, hpreset, hdetail]
    simp [h2]

/-- C7 witness: a 403 on verification of the pre-supplied zone id caches and
returns that id. -/
theorem C7_witness :
    discoverZoneId cfPermissionEnv ⟨some "zone-123"⟩ initialAdaptiveState "api.example.com" =
      (.ok "zone-123", cacheZoneId (bumpCalls initialAdaptiveState)
        (extractRootDomainAdaptive "api.example.com") "zone-123" "provided_unverified") := by
  exact ((C7_presupplied_zone_id cfPermissionEnv ⟨some "zone-123"⟩ initialAdaptiveState
    "api.example.com" "zone-123" (some 403) none "Request failed with status code 403"
    rfl rfl rfl).1 (by decide)).1

theorem cacheLookup_cacheZoneId (st : AdaptiveState) (d z m : String) :
    cacheLookup (cacheZoneId st d z m).zoneCache d = some ⟨z, m⟩ := by
  simp [cacheLookup, cacheZoneId]

theorem discoverZoneIdF_cache_hit (env : CFEnv) (opts : AdaptiveOptions) (fuel : Nat)
    (st : AdaptiveState) (domain : String) (entry : ZoneCacheEntry)
    (h : cacheLookup st.zoneCache (extractRootDomainAdaptive domain) = some entry) :
    discoverZoneIdF env opts fuel st domain = (.ok entry.zoneId, st) := by
  cases fuel <;> simp only [discoverZoneIdF, discoverOnce, h]

theorem strategy1_found (env : CFEnv) (opts : AdaptiveOptions) (st : AdaptiveState)
    (root z : String) (st' : AdaptiveState) (h : strategy1 env opts st root = .found z st') :
    ∃ stb m, st' = cacheZoneId stb root z m := by
  unfold strategy1 at h
  repeat'
    first
      | split at h
      | (simp only [StratOut.found.injEq] at h
         exact ⟨_, _, h.1 ▸ h.2.symm⟩)
      | simp at h

theorem strategy2_found (env : CFEnv) (st : AdaptiveState) (root z : String)
    (st' : AdaptiveState) (h : strategy2 env st root = .found z st') :
    ∃ stb m, st' = cacheZoneId stb root z m := by
  unfold strategy2 at h
  repeat'
    first
      | split at h
      | (simp only [StratOut.found.injEq] at h
         exact ⟨_, _, h.1 ▸ h.2.symm⟩)
      | simp at h

theorem strategy3_found (env : CFEnv) (st : AdaptiveState) (domain root z : String)
    (st' : AdaptiveState) (h : strategy3 env st domain root = .found z st') :
    ∃ stb m, st' = cacheZoneId stb root z m := by
  unfold strategy3 at h
  repeat'
    first
      | split at h
      | (simp only [StratOut.found.injEq] at h
         exact ⟨_, _, h.1 ▸ h.2.symm⟩)
      | simp at h

theorem strategy4_found (env : CFEnv) (st : AdaptiveState) (root z : String)
    (st' : AdaptiveState) (h : strategy4 env st root = .found z st') :
    ∃ stb m, st' = cacheZoneId stb root z m := by
  unfold strategy4 at h
  repeat'
    first
      | split at h
      | (simp only [StratOut.found.injEq] at h
         exact ⟨_, _, h.1 ▸ h.2.symm⟩)
      | simp at h

theorem discoverFromStrategy2_ok_cached (env : CFEnv)
    (recurse : AdaptiveState → Except DNSProviderError String × AdaptiveState)
    (st : AdaptiveState) (domain rootDomain : String)
    (hrec : ∀ st2 z st3, recurse st2 = (.ok z, st3) →
        ∃ m, cacheLookup st3.zoneCache rootDomain = some ⟨z, m⟩) :
    ∀ z st', discoverFromStrategy2 env recurse st domain rootDomain = (.ok z, st') →
      ∃ m, cacheLookup st'.zoneCache rootDomain = some ⟨z, m⟩ := by
  intro z st' h
  unfold discoverFromStrategy2 at h
  cases hs2 : strategy2 env st rootDomain with
  | found z2 stf =>
      simp only [hs2] at h
      simp only [Prod.mk.injEq, Except.ok.injEq] at h
      obtain ⟨rfl, rfl⟩ := h
      obtain ⟨stb, m, hst⟩ := strategy2_found _ _ _ _ _ hs2
      exact ⟨m, by rw [hst]; exact cacheLookup_cacheZoneId _ _ _ _⟩
  | next stn2 =>
      simp only [hs2] at h
      cases hs3 : strategy3 env stn2 domain rootDomain with
      | found z3 stf =>
          simp only [hs3] at h
          simp only [Prod.mk.injEq, Except.ok.injEq] at h
          obtain ⟨rfl, rfl⟩ := h
          obtain ⟨stb, m, hst⟩ := strategy3_found _ _ _ _ _ _ hs3
          exact ⟨m, by rw [hst]; exact cacheLookup_cacheZoneId _ _ _ _⟩
      | next stn3 =>
          simp only [hs3] at h
          cases hs4 : strategy4 env stn3 rootDomain with
          | found z4 stf =>
              simp only [hs4] at h
              simp only [Prod.mk.injEq, Except.ok.injEq] at h
              obtain ⟨rfl, rfl⟩ := h
              obtain ⟨stb, m, hst⟩ := strategy4_found _ _ _ _ _ hs4
              exact ⟨m, by rw [hst]; exact cacheLookup_cacheZoneId _ _ _ _⟩
          | next stn4 =>
              simp only [hs4] at h
              repeat'
                first
                  | split at h
                  | exact hrec _ _ _ h
                  | simp at h

theorem discoverOnce_ok_cached (env : CFEnv) (opts : AdaptiveOptions)
    (recurse : AdaptiveState → Except DNSProviderError String × AdaptiveState)
    (st : AdaptiveState) (domain : String)
    (hrec : ∀ st2 z st3, recurse st2 = (.ok z, st3) →
        ∃ m, cacheLookup st3.zoneCache (extractRootDomainAdaptive domain) = some ⟨z, m⟩) :
    ∀ z st', discoverOnce env opts recurse st domain = (.ok z, st') →
      ∃ m, cacheLookup st'.zoneCache (extractRootDomainAdaptive domain) = some ⟨z, m⟩ := by
  intro z st' h
  simp only [discoverOnce] at h
  cases hc : cacheLookup st.zoneCache (extractRootDomainAdaptive domain) with
  | some entry =>
      simp only [hc] at h
      simp only [Prod.mk.injEq, Except.ok.injEq] at h
      obtain ⟨rfl, rfl⟩ := h
      exact ⟨entry.method, hc⟩
  | none =>
      simp only [hc] at h
      cases hs1 : strategy1 env opts st (extractRootDomainAdaptive domain) with
      | found z1 stf =>
          simp only [hs1] at h
          simp only [Prod.mk.injEq, Except.ok.injEq] at h
          obtain ⟨rfl, rfl⟩ := h
          obtain ⟨stb, m, hst⟩ := strategy1_found _ _ _ _ _ _ hs1
          exact ⟨m, by rw [hst]; exact cacheLookup_cacheZoneId _ _ _ _⟩
      | next stn1 =>
          simp only [hs1] at h
          exact discoverFromStrategy2_ok_cached env recurse stn1 domain _ hrec z st' h

theorem discoverZoneIdF_ok_cached (fuel : Nat) :
    ∀ (env : CFEnv) (opts : AdaptiveOptions) (st : AdaptiveState) (domain z : String)
      (st' : AdaptiveState),
      discoverZoneIdF env opts fuel st domain = (.ok z, st') →
      ∃ m, cacheLookup st'.zoneCache (extractRootDomainAdaptive domain) = some ⟨z, m⟩ := by
  induction fuel with
  | zero =>
      intro env opts st domain z st' h
      simp only [discoverZoneIdF] at h
      refine discoverOnce_ok_cached env opts _ st domain ?_ z st' h
      intro st2 z2 st3 h2
      simp at h2
  | succ n ih =>
      intro env opts st domain z st' h
      simp only [discoverZoneIdF] at h
      refine discoverOnce_ok_cached env opts _ st domain ?_ z st' h
      intro st2 z2 st3 h2
      exact ih env opts st2 domain z2 st3 h2

/-- C8 counterexample: both consecutive resolutions succeed, but the pair
performs two network lookups (the 404 verification of the pre-supplied id
plus the direct name lookup), not exactly one as the claim states. -/
theorem C8_counterexample_two_lookups :
    c8FirstRun.1 = .ok "zid-real" ∧ c8SecondRun.1 = .ok "zid-real" ∧
    c8FirstRun.2.calls = 2 ∧ c8SecondRun.2.calls = 2 ∧ c8SecondRun.2.calls ≠ 1 :=
  ⟨rfl, rfl, rfl, rfl, by decide⟩

/-- C8 amended: after a discovery succeeds for a domain, a second discovery
for any domain with the same root returns the cached zone id immediately and
leaves the state (in particular the network-call counter) unchanged - the
second resolution issues no network lookup; when no zone id is pre-supplied
and the direct name lookup succeeds, the first resolution issues exactly one
network lookup, so the pair then performs exactly one in total. -/
theorem C8_amended_zone_cache (env : CFEnv) (opts : AdaptiveOptions) (st : AdaptiveState)
    (domain domain2 z : String) (st' : AdaptiveState)
    (hroot : extractRootDomainAdaptive domain2 = extractRootDomainAdaptive domain)
    (h : discoverZoneId env opts st domain = (.ok z, st')) :
    discoverZoneId env opts st' domain2 = (.ok z, st') ∧
    (discoverZoneId env opts st' domain2).2.calls = st'.calls ∧
    (∀ zone rest em, opts.presetZoneId = none →
        cacheLookup st.zoneCache (extractRootDomainAdaptive domain) = none →
        env.zonesByName (extractRootDomainAdaptive domain) = .ok ⟨true, zone :: rest, em⟩ →
        st'.calls = st.calls + 1) := by
  obtain ⟨m, hcache⟩ := discoverZoneIdF_ok_cached 1 env opts st domain z st' h
  have hhit : discoverZoneId env opts st' domain2 = (.ok z, st') :=
    discoverZoneIdF_cache_hit env opts 1 st' domain2 ⟨z, m⟩ (by rw [hroot]; exact hcache)
  refine ⟨hhit, by rw [hhit], ?_⟩
  intro zone rest em hpre hmiss hname
  have hcomp : discoverZoneId env opts st domain =
      (.ok zone.id, cacheZoneId (bumpCalls st) (extractRootDomainAdaptive domain)
        zone.id "direct_lookup") := by
    simp only [discoverZoneId, discoverZoneIdF, discoverOnce, hmiss, strategy1, hpre,
      discoverFromStrategy2, strategy2, hname]
    simp
  rw [hcomp] at h
  simp only [Prod.mk.injEq, Except.ok.injEq] at h
  rw [← h.2]
  rfl

/-- C8 witness: with the zone id cached by a successful direct lookup, a
second resolution for a sibling subdomain returns the cached id, leaves the
call counter at one, and the whole pair spent exactly the single direct
lookup. -/
theorem C8_amended_witness :
    discoverZoneId cfPresetThenDirectEnv ⟨none⟩
        (cacheZoneId (bumpCalls initialAdaptiveState) "example.com" "zid-real" "direct_lookup")
        "api.example.com" =
      (.ok "zid-real",
        cacheZoneId (bumpCalls initialAdaptiveState) "example.com" "zid-real" "direct_lookup") ∧
    (cacheZoneId (bumpCalls initialAdaptiveState) "example.com" "zid-real"
        "direct_lookup").calls = initialAdaptiveState.calls + 1 := by
  have h := C8_amended_zone_cache cfPresetThenDirectEnv ⟨none⟩ initialAdaptiveState
    "www.example.com" "api.example.com" "zid-real"
    (cacheZoneId (bumpCalls initialAdaptiveState) "example.com" "zid-real" "direct_lookup")
    rfl rfl
  exact ⟨h.1, h.2.2 ⟨"zid-real", "example.com", none⟩ [] none rfl rfl rfl⟩

theorem zoneErrorEnv_discovery (st : AdaptiveState) :
    ∃ z st1, discoverZoneId zoneErrorEnv ⟨none⟩ st "www.example.com" = (.ok z, st1) ∧
      st1.discoveryAttempts = st.discoveryAttempts := by
  cases hc : cacheLookup st.zoneCache (extractRootDomainAdaptive "www.example.com") with
  | some entry =>
      exact ⟨entry.zoneId, st, discoverZoneIdF_cache_hit _ _ 1 _ _ _ hc, rfl⟩
  | none =>
      refine ⟨"zid-1", cacheZoneId (bumpCalls st) (extractRootDomainAdaptive "www.example.com")
        "zid-1" "direct_lookup", ?_, rfl⟩
      simp only [discoverZoneId, discoverZoneIdF, discoverOnce, hc, strategy1,
        discoverFromStrategy2, strategy2, zoneErrorEnv, cfEmptyEnv]
      simp

/-- C1 (code bug): against a provider whose create request persistently
fails with a zone-related message, the adaptive createRecord never surfaces
the failure for any recursion budget: every invocation resets the
discovery-attempt counter to zero before doing anything, so the retry guard
(counter below 2) always passes, the cache is cleared and the operation
re-enters itself forever - the cache-clear-and-retry is unbounded, not
capped at one retry with the second failure surfacing as the claim states. -/
theorem C1_code_bug_unbounded_retry (fuel : Nat) (st : AdaptiveState) :
    adaptiveCreateRecordF zoneErrorEnv ⟨none⟩ fuel st "www.example.com"
      ⟨"A", "www", "203.0.113.5", 300, none⟩ = none := by
  induction fuel generalizing st with
  | zero => rfl
  | succ n ih =>
      obtain ⟨z, st1, hdisc, hatt⟩ := zoneErrorEnv_discovery { st with discoveryAttempts := 0 }
      have hatt0 : st1.discoveryAttempts = 0 := hatt
      simp only [adaptiveCreateRecordF, hdisc]
      simp [bumpCalls, hatt0, Option.getD,
        show strContains "DNS zone is misconfigured" "zone" = true from by decide,
        show zoneErrorEnv.postRecord z (adaptiveCreatePayload "www.example.com"
            ⟨"A", "www", "203.0.113.5", 300, none⟩) =
          .ok ⟨false, some "DNS zone is misconfigured", ⟨"", "", "", "", 0, none⟩⟩ from rfl]
      exact ih _

end NeptuneDNS
